import Mathlib

/-!
Shallow embedding of the ontology validation core of `llm_owl`
(`src/validator.py` and `src/generate_ontology.py`).

Modelling conventions:
- A parsed graph is represented by its query behaviour, a function
  `String → QueryRes` mapping a SPARQL text to what `g.query` does with it:
  raise (`QueryRes.err`), return a boolean (ASK), or return rows (SELECT).
- A SELECT result row is its list of term values, each already rendered by
  Python `str`; `_row_to_string` joins them with `"|"` (`row_to_string` here).
- The `expected` field of a competency question is one of the JSON shapes the
  code dispatches on: absent (`Expected.none`), a boolean, an integer, or a
  list of values (each value modelled by its Python `str` rendering, which is
  what `set(str(x) for x in expected)` compares).
- Python dynamic checks are mirrored exactly: `isinstance(expected, int)` is
  true for booleans as well (`True == 1`, `False == 0`), `None == b` is
  `False` for a boolean `b`, and truthiness of a string is non-emptiness.
-/

/-- The JSON shapes the code dispatches on for a question's `expected` field:
absent, boolean, integer, or a list of values (modelled post-`str`). -/
inductive Expected where
  | none
  | bool (b : Bool)
  | int (n : Int)
  | list (xs : List String)
deriving DecidableEq, Repr

/-- Python `expected == actual_bool` for `actual_bool : bool`, mirroring
Python equality semantics: `None == b` is false, `True == 1` and
`False == 0` hold, and a list never equals a boolean. -/
def pyEqBool (expected : Expected) (b : Bool) : Bool :=
  match expected with
  | Expected.none => false
  | Expected.bool e => e == b
  | Expected.int n => n == (if b then 1 else 0)
  | Expected.list _ => false

/-- `validator.py` line 191:
`passed = True if expected is None and actual_bool else (expected == actual_bool)`. -/
def askPassed (expected : Expected) (b : Bool) : Bool :=
  match expected, b with
  | Expected.none, true => true
  | e, bb => pyEqBool e bb

/-- Boolean set-equality test on lists of strings, the meaning of
Python `set(rows) == set(strs)`. -/
def listSetEq (a b : List String) : Bool :=
  a.all (fun x => b.contains x) && b.all (fun x => a.contains x)

/-- `validator.py` lines 199-205, dispatch on the shape of `expected` for a
SELECT result. Branch order mirrors the source: `isinstance(expected, int)`
first (a Python `bool` is an `int`, with `True == 1`, `False == 0`), then
`isinstance(expected, list)`, else the default "any rows" rule. -/
def selectPassed (expected : Expected) (rows : List String) : Bool :=
  match expected with
  | Expected.bool b => (rows.length : Int) == (if b then 1 else 0)
  | Expected.int n => (rows.length : Int) == n
  | Expected.list xs => listSetEq rows xs
  | Expected.none => decide (rows.length > 0)

/-- A competency question record as read from the questions file:
`id`/`name` optional, `sparql` defaulting to `""`, `expected` optional,
`question` defaulting to `""`. -/
structure CQ where
  id : Option String
  name : Option String
  sparql : String
  expected : Expected
  question : String
deriving DecidableEq, Repr

/-- Python `a or b` where `a` is an optional string: `b` when `a` is missing
or empty (falsy). -/
def orFalsy (a : Option String) (b : String) : String :=
  match a with
  | Option.some s => if s = "" then b else s
  | Option.none => b

/-- `validator.py` line 169: `qid = cq.get("id") or cq.get("name") or "unnamed"`. -/
def qidOf (cq : CQ) : String := orFalsy cq.id (orFalsy cq.name "unnamed")

/-- The `actual` field of a per-question entry: `None` after a query error,
a boolean for ASK, or the canonicalized row strings for SELECT. -/
inductive Actual where
  | none
  | bool (b : Bool)
  | rows (rs : List String)
deriving DecidableEq, Repr

/-- A per-question outcome dict built by `validate_with_competency_question`.
`error` is `Option.none` when the code never sets the `error` key. -/
structure Entry where
  id : String
  sparql : String
  expected : Expected
  question : String
  passed : Bool
  error : Option String
  actual : Actual
deriving DecidableEq, Repr

/-- Outcome of `g.query(sparql)`: an exception (message captured by
`str(e)`), an ASK boolean, or SELECT rows (each row its list of values). -/
inductive QueryRes where
  | err (msg : String)
  | bool (b : Bool)
  | rows (rs : List (List String))
deriving DecidableEq, Repr

/-- `validator.py` `_row_to_string`: join the row's values with `"|"`. -/
def row_to_string (row : List String) : String := String.intercalate "|" row

/-- `validator.py` lines 166-208, `validate_with_competency_question`.
The `results` list is passed by the caller but never used by the source
function; it is kept here for fidelity. -/
def validate_with_competency_question (query : String → QueryRes) (cq : CQ)
    (results : List Entry) : Entry :=
  match query cq.sparql with
  | QueryRes.err e =>
      { id := qidOf cq, sparql := cq.sparql, expected := cq.expected,
        question := cq.question, passed := false, error := Option.some e,
        actual := Actual.none }
  | QueryRes.bool b =>
      { id := qidOf cq, sparql := cq.sparql, expected := cq.expected,
        question := cq.question, passed := askPassed cq.expected b,
        error := Option.none, actual := Actual.bool b }
  | QueryRes.rows rs =>
      { id := qidOf cq, sparql := cq.sparql, expected := cq.expected,
        question := cq.question,
        passed := selectPassed cq.expected (rs.map row_to_string),
        error := Option.none, actual := Actual.rows (rs.map row_to_string) }

/-- The `summary` dict of a validation report. -/
structure Summary where
  total : Nat
  passed : Nat
deriving DecidableEq, Repr

/-- The report dict returned by `validate_with_competency_questions`. -/
structure Report where
  summary : Summary
  results : List Entry
deriving DecidableEq, Repr

/-- The `for cq in competency_questions` loop of
`validate_with_competency_questions` (lines 139-143): accumulate entries in
order, incrementing `passed_count` when the entry passed. The source guard
`if output and output.get("passed", True)` reduces to `output.passed`
because every entry is a non-empty dict whose `passed` key is always set. -/
def cqLoop (query : String → QueryRes) (cqs : List CQ)
    (results : List Entry) (passed_count : Nat) : List Entry × Nat :=
  match cqs with
  | [] => (results, passed_count)
  | cq :: rest =>
      let output := validate_with_competency_question query cq results
      let passed_count := if output.passed then passed_count + 1 else passed_count
      cqLoop query rest (results ++ [output]) passed_count

/-- `validator.py` lines 114-163, `validate_with_competency_questions`,
given an already-parsed graph (its query behaviour): returns the overall
success flag `passed_count == len(competency_questions)` and the report. -/
def validate_with_competency_questions (query : String → QueryRes)
    (competency_questions : List CQ) : Bool × Report :=
  let out := cqLoop query competency_questions [] 0
  (out.2 == competency_questions.length,
   { summary := { total := competency_questions.length, passed := out.2 },
     results := out.1 })

/-- Outcome of the `sync_reasoner_pellet` call inside `check_consistency`:
it raises `OwlReadyInconsistentOntologyError` (hard inconsistency), completes
with a list of inconsistent-class names in the order
`world.inconsistent_classes()` yields them, or raises any other exception
(e.g. a missing Java runtime), whose message is recorded here. -/
inductive ReasonerOutcome where
  | inconsistent
  | completed (classes : List String)
  | raised (e : String)
deriving DecidableEq, Repr

/-- `validator.py` lines 45-63, `check_consistency`. The `try` block catches
only `OwlReadyInconsistentOntologyError`; any other exception from the
reasoner call propagates to the caller, modelled by `Except.error`. The
class-name enumeration joins names with `", "` and reports them in one
message when the joined string is truthy (non-empty). -/
def check_consistency (r : ReasonerOutcome) : Except String (List String) :=
  match r with
  | ReasonerOutcome.inconsistent => Except.ok ["The ontology is inconsistent"]
  | ReasonerOutcome.completed classes =>
      let inconsistent_classes := String.intercalate ", " classes
      if inconsistent_classes ≠ "" then
        Except.ok ["There are inconsistent classes in the ontology: "
                     ++ inconsistent_classes]
      else
        Except.ok []
  | ReasonerOutcome.raised e => Except.error e

/-- Result of `generate_ontology.py` `validate_output`, keeping the
distinctions the source makes: the fixed string
`"Failed to load Turtle file."` on a syntax failure, the pretty-printed
report text (paired with the report it renders) when some competency
question failed, and `None` when everything passed. -/
inductive ValidateResult where
  | ttlFailed
  | cqFailed (report : Report)
  | passed
deriving DecidableEq, Repr

/-- `generate_ontology.py` lines 99-114, `validate_output`. The document is
modelled by its parse outcome: `Option.none` when `validate_ttl` fails
(unparseable Turtle), otherwise the parsed graph's query behaviour. On parse
failure the function returns immediately with the fixed error message and
runs nothing else — in particular `validate_with_competency_questions` is
never evaluated (`check_consistency` is not called by this function at
all). -/
def validate_output (doc : Option (String → QueryRes)) (cqs : List CQ) :
    ValidateResult :=
  match doc with
  | Option.none => ValidateResult.ttlFailed
  | Option.some query =>
      let out := validate_with_competency_questions query cqs
      if out.1 then ValidateResult.passed else ValidateResult.cqFailed out.2

/-- `generate_ontology.py` lines 121-153, `llm_fix_and_validate`, counting
producer (LLM fix) invocations. Each call performs exactly one `call_llm`
fix invocation, validates the fixed artifact, and recurses with `step + 1`
when validation still fails and `step < max_steps`. `validateAfterFix s` is
the `validate_output` result after the fix made at step `s`
(`Option.some msg` = failure). An LLM-call failure exits the process
immediately, which only lowers the invocation count. -/
def llm_fix_and_validate (validateAfterFix : Nat → Option String)
    (step max_steps : Nat) : Nat :=
  if h : (validateAfterFix step).isSome ∧ step < max_steps then
    1 + llm_fix_and_validate validateAfterFix (step + 1) max_steps
  else
    1
termination_by max_steps - step
decreasing_by omega

/-- `generate_ontology.py` lines 156-188, `llm_setup_and_validate`, counting
producer fix invocations after the initial generation: the fix loop is
entered (with the default `step = 0`, `max_steps = 3`) only when the initial
validation failed and `--recursive` was given. -/
def llm_setup_and_validate (initial_error : Option String) (recursive : Bool)
    (validateAfterFix : Nat → Option String) : Nat :=
  if initial_error.isSome ∧ recursive = true then
    llm_fix_and_validate validateAfterFix 0 3
  else 0

/-- Total number of `validate_output` cycles in one `llm_setup_and_validate`
run: the initial validation plus one validation per fix invocation. -/
def total_validate_cycles (initial_error : Option String) (recursive : Bool)
    (validateAfterFix : Nat → Option String) : Nat :=
  1 + llm_setup_and_validate initial_error recursive validateAfterFix

/-- The report, if any, carried by a `validate_output` result. -/
def ValidateResult.reportOf : ValidateResult → Option Report
  | ValidateResult.cqFailed r => Option.some r
  | _ => Option.none

/-- Concrete inputs used to instantiate the theorems below. -/
def askNoneCQ : CQ :=
  { id := Option.some "q1", name := Option.none, sparql := "ASK-1",
    expected := Expected.none, question := "does a sign exist" }

def askTrueQuery : String → QueryRes := fun _ => QueryRes.bool true

def rowCountCQ : CQ :=
  { id := Option.some "q3", name := Option.none, sparql := "SELECT-3",
    expected := Expected.int 3, question := "" }

def threeRowQuery : String → QueryRes :=
  fun _ => QueryRes.rows [["a", "b"], ["a|b"], ["c"]]

def rowSetCQ : CQ :=
  { id := Option.some "q4", name := Option.none, sparql := "SELECT-4",
    expected := Expected.list ["a", "b"], question := "" }

def dupRowQuery : String → QueryRes :=
  fun _ => QueryRes.rows [["b"], ["a"], ["a"]]

def errCQ : CQ :=
  { id := Option.some "bad", name := Option.none, sparql := "BAD-Q",
    expected := Expected.none, question := "" }

def okCQ : CQ :=
  { id := Option.some "good", name := Option.none, sparql := "GOOD-Q",
    expected := Expected.none, question := "" }

def mixedQuery : String → QueryRes :=
  fun s => if s = "BAD-Q" then QueryRes.err "parse error at line 1"
           else QueryRes.rows [["x"]]

def gateCQ : CQ :=
  { id := Option.some "q7", name := Option.none, sparql := "ASK-7",
    expected := Expected.none, question := "" }

def boolExpCQ : CQ :=
  { id := Option.some "q10", name := Option.none, sparql := "SELECT-1",
    expected := Expected.bool true, question := "" }

def oneRowQuery : String → QueryRes := fun _ => QueryRes.rows [["only"]]

/-! ## Helper lemmas -/

theorem validate_cq_results_irrel (query : String → QueryRes) (cq : CQ)
    (rs1 rs2 : List Entry) :
    validate_with_competency_question query cq rs1
      = validate_with_competency_question query cq rs2 := rfl

theorem cqLoop_results (query : String → QueryRes) (cqs : List CQ) :
    ∀ (acc : List Entry) (pc : Nat),
      (cqLoop query cqs acc pc).1
        = acc ++ cqs.map (fun cq => validate_with_competency_question query cq []) := by
  induction cqs with
  | nil => intro acc pc; simp [cqLoop]
  | cons cq rest ih =>
      intro acc pc
      simp only [cqLoop]
      rw [ih]
      simp [validate_cq_results_irrel query cq acc []]

theorem cqLoop_passed (query : String → QueryRes) (cqs : List CQ) :
    ∀ (acc : List Entry) (pc : Nat),
      (cqLoop query cqs acc pc).2
        = pc + ((cqs.map (fun cq => validate_with_competency_question query cq [])).countP
            (fun e => e.passed)) := by
  induction cqs with
  | nil => intro acc pc; simp [cqLoop]
  | cons cq rest ih =>
      intro acc pc
      simp only [cqLoop]
      rw [ih]
      rw [validate_cq_results_irrel query cq acc []]
      by_cases h : (validate_with_competency_question query cq []).passed
        <;> simp [h, List.countP_cons] <;> omega

theorem listSetEq_iff (a b : List String) :
    listSetEq a b = true ↔ (∀ s, s ∈ a ↔ s ∈ b) := by
  simp only [listSetEq, Bool.and_eq_true, List.all_eq_true]
  constructor
  · rintro ⟨h1, h2⟩ s
    constructor
    · intro hs
      have := h1 s hs
      simpa using this
    · intro hs
      have := h2 s hs
      simpa using this
  · intro h
    constructor
    · intro s hs
      simpa using (h s).mp hs
    · intro s hs
      simpa using (h s).mpr hs

theorem llm_fix_and_validate_le (v : Nat → Option String) (max_steps : Nat) :
    ∀ (k step : Nat), max_steps - step = k →
      llm_fix_and_validate v step max_steps ≤ (max_steps - step) + 1 := by
  intro k
  induction k with
  | zero =>
      intro step hk
      unfold llm_fix_and_validate
      split
      · next h => omega
      · omega
  | succ k ih =>
      intro step hk
      unfold llm_fix_and_validate
      split
      · next h =>
          have hrec := ih (step + 1) (by omega)
          omega
      · omega

/-! ## Claim theorems -/

/-- C5: for every question list and parsed graph, the evaluator's report
satisfies `summary.passed = number of results with passed = true`,
`summary.total = len(results) = number of input questions` (hence
`passed ≤ total`), the overall-success boolean is true iff the passed count
equals the total, and an empty question list trivially succeeds. -/
theorem summary_invariants (query : String → QueryRes) (cqs : List CQ) :
    (validate_with_competency_questions query cqs).2.summary.passed
        = (validate_with_competency_questions query cqs).2.results.countP (fun e => e.passed)
    ∧ (validate_with_competency_questions query cqs).2.summary.total
        = (validate_with_competency_questions query cqs).2.results.length
    ∧ (validate_with_competency_questions query cqs).2.results.length = cqs.length
    ∧ (validate_with_competency_questions query cqs).2.summary.passed
        ≤ (validate_with_competency_questions query cqs).2.summary.total
    ∧ ((validate_with_competency_questions query cqs).1 = true ↔
        (validate_with_competency_questions query cqs).2.summary.passed
          = (validate_with_competency_questions query cqs).2.summary.total)
    ∧ (validate_with_competency_questions query []).1 = true := by
  have hres : (validate_with_competency_questions query cqs).2.results
      = cqs.map (fun cq => validate_with_competency_question query cq []) := by
    unfold validate_with_competency_questions
    simpa using cqLoop_results query cqs [] 0
  have hpc : (validate_with_competency_questions query cqs).2.summary.passed
      = (cqs.map (fun cq => validate_with_competency_question query cq [])).countP
          (fun e => e.passed) := by
    unfold validate_with_competency_questions
    simpa using cqLoop_passed query cqs [] 0
  have htot : (validate_with_competency_questions query cqs).2.summary.total
      = cqs.length := rfl
  have hflag : (validate_with_competency_questions query cqs).1
      = ((validate_with_competency_questions query cqs).2.summary.passed
          == cqs.length) := rfl
  refine ⟨?_, ?_, ?_, ?_, ?_, ?_⟩
  · rw [hpc, hres]
  · rw [htot, hres]
    simp
  · rw [hres]
    simp
  · rw [hpc, htot]
    have hle := List.countP_le_length (p := fun e => e.passed)
        (l := cqs.map (fun cq => validate_with_competency_question query cq []))
    simpa using hle
  · rw [hflag, htot]
    simp
  · rfl

/-- C9: the evaluator is a deterministic pure function of the parsed
document's query behaviour and the question list: per-question outcomes do
not depend on the results accumulator threaded through the loop (the only
mutable state in the source signature), and two runs on the same two inputs
yield identical success flag, summary and results. -/
theorem evaluator_deterministic (query : String → QueryRes) (cqs : List CQ) :
    (∀ (cq : CQ) (rs1 rs2 : List Entry),
        validate_with_competency_question query cq rs1
          = validate_with_competency_question query cq rs2)
    ∧ validate_with_competency_questions query cqs
        = validate_with_competency_questions query cqs :=
  ⟨fun _ _ _ => rfl, rfl⟩

/-- C2: for an ASK (boolean) query result, with `expected` unset the
question passes iff the raw result is true, and with a boolean `expected`
it passes iff `expected` equals the raw result (in particular
`expected = false` passes iff the result is false). -/
theorem ask_passed_semantics (query : String → QueryRes) (cq : CQ) (b : Bool)
    (h : query cq.sparql = QueryRes.bool b) :
    (cq.expected = Expected.none →
        ((validate_with_competency_question query cq []).passed = true ↔ b = true))
    ∧ (∀ e : Bool, cq.expected = Expected.bool e →
        ((validate_with_competency_question query cq []).passed = true ↔ e = b)) := by
  unfold validate_with_competency_question
  rw [h]
  constructor
  · intro he
    rw [he]
    cases b <;> simp [askPassed, pyEqBool]
  · intro e he
    rw [he]
    cases e <;> cases b <;> simp [askPassed, pyEqBool]

/-- Witness for C2: an ASK query returning `true` with `expected` unset
passes. -/
theorem ask_passed_semantics_witness :
    askNoneCQ.expected = Expected.none
    ∧ (validate_with_competency_question askTrueQuery askNoneCQ []).passed = true :=
  ⟨rfl, ((ask_passed_semantics askTrueQuery askNoneCQ true rfl).1 rfl).mpr rfl⟩

/-- C3: for a SELECT result with integer `expected`, the question passes iff
the number of raw result rows equals `expected`; the count is taken on the
raw row list, so duplicate rows count separately even when they canonicalize
to the same string (the recorded `actual` is the canonicalized list, which
has the same length as the raw list). -/
theorem row_count_semantics (query : String → QueryRes) (cq : CQ)
    (rs : List (List String)) (n : Int)
    (h : query cq.sparql = QueryRes.rows rs) (he : cq.expected = Expected.int n) :
    ((validate_with_competency_question query cq []).passed = true ↔ (rs.length : Int) = n)
    ∧ (validate_with_competency_question query cq []).actual
        = Actual.rows (rs.map row_to_string) := by
  unfold validate_with_competency_question
  rw [h, he]
  refine ⟨?_, rfl⟩
  simp [selectPassed]

/-- Witness for C3: three raw rows, two of which canonicalize to the same
string `"a|b"`, against `expected = 3` — the question passes because raw
rows are counted. -/
theorem row_count_semantics_witness :
    rowCountCQ.expected = Expected.int 3
    ∧ row_to_string ["a", "b"] = row_to_string ["a|b"]
    ∧ (validate_with_competency_question threeRowQuery rowCountCQ []).passed = true :=
  ⟨rfl, by decide,
    ((row_count_semantics threeRowQuery rowCountCQ [["a", "b"], ["a|b"], ["c"]] 3
        rfl rfl).1).mpr (by decide)⟩

/-- C4: for a SELECT result with list `expected`, the question passes iff
the set of canonicalized actual row strings equals the set of expected
values — stated both as a membership equivalence and as `Finset` equality,
each insensitive to row order and to duplicates on either side. -/
theorem row_set_semantics (query : String → QueryRes) (cq : CQ)
    (rs : List (List String)) (xs : List String)
    (h : query cq.sparql = QueryRes.rows rs) (he : cq.expected = Expected.list xs) :
    ((validate_with_competency_question query cq []).passed = true ↔
        (∀ s, s ∈ rs.map row_to_string ↔ s ∈ xs))
    ∧ ((validate_with_competency_question query cq []).passed = true ↔
        (rs.map row_to_string).toFinset = xs.toFinset) := by
  unfold validate_with_competency_question
  rw [h, he]
  have h1 := listSetEq_iff (rs.map row_to_string) xs
  constructor
  · simpa [selectPassed] using h1
  · have h2 : ((rs.map row_to_string).toFinset = xs.toFinset) ↔
        (∀ s, s ∈ rs.map row_to_string ↔ s ∈ xs) := by
      simp [Finset.ext_iff]
    rw [h2]
    simpa [selectPassed] using h1

/-- Witness for C4: actual rows `["b", "a", "a"]` (duplicates, different
order) match `expected = ["a", "b"]`. -/
theorem row_set_semantics_witness :
    rowSetCQ.expected = Expected.list ["a", "b"]
    ∧ (validate_with_competency_question dupRowQuery rowSetCQ []).passed = true :=
  ⟨rfl, ((row_set_semantics dupRowQuery rowSetCQ [["b"], ["a"], ["a"]] ["a", "b"]
      rfl rfl).2).mpr (by decide)⟩

/-- C6: when a question's query execution raises, the evaluator records an
outcome with `passed = false`, the exception's message as `error`, and
`actual = None`; and for every question list the batch still produces one
outcome per question in input order (so one bad query never aborts the
batch or raises out of the evaluator). -/
theorem query_error_semantics (query : String → QueryRes) (cq : CQ) (msg : String)
    (h : query cq.sparql = QueryRes.err msg) :
    ((validate_with_competency_question query cq []).passed = false
      ∧ (validate_with_competency_question query cq []).error = Option.some msg
      ∧ (validate_with_competency_question query cq []).actual = Actual.none)
    ∧ (∀ cqs : List CQ,
        (validate_with_competency_questions query cqs).2.results
          = cqs.map (fun q => validate_with_competency_question query q [])) := by
  constructor
  · unfold validate_with_competency_question
    rw [h]
    exact ⟨rfl, rfl, rfl⟩
  · intro cqs
    unfold validate_with_competency_questions
    simpa using cqLoop_results query cqs [] 0

/-- Witness for C6: a batch with a failing query (`errCQ`) followed by a
working one (`okCQ`): the bad question records the error with
`passed = false`, and the batch still evaluates both questions, the second
passing. -/
theorem query_error_semantics_witness :
    (validate_with_competency_question mixedQuery errCQ []).passed = false
    ∧ (validate_with_competency_question mixedQuery errCQ []).error
        = Option.some "parse error at line 1"
    ∧ (validate_with_competency_question mixedQuery errCQ []).actual = Actual.none
    ∧ (validate_with_competency_questions mixedQuery [errCQ, okCQ]).2.results.length = 2
    ∧ (validate_with_competency_question mixedQuery okCQ []).passed = true := by
  have hth := query_error_semantics mixedQuery errCQ "parse error at line 1" (by decide)
  refine ⟨hth.1.1, hth.1.2.1, hth.1.2.2, ?_, by decide⟩
  rw [hth.2 [errCQ, okCQ]]
  rfl

/-- C10: for a SELECT (row-valued) result whose `expected` is a boolean,
the code's `isinstance(expected, int)` branch treats it as a row count
(`True == 1`, `False == 0`): with `expected = true` the question passes iff
exactly 1 raw row is returned, with `expected = false` iff 0 rows are
returned. -/
theorem bool_expected_row_query (query : String → QueryRes) (cq : CQ)
    (rs : List (List String)) (h : query cq.sparql = QueryRes.rows rs) :
    (cq.expected = Expected.bool true →
        ((validate_with_competency_question query cq []).passed = true ↔ rs.length = 1))
    ∧ (cq.expected = Expected.bool false →
        ((validate_with_competency_question query cq []).passed = true ↔ rs.length = 0)) := by
  unfold validate_with_competency_question
  rw [h]
  constructor
  · intro he
    rw [he]
    simp [selectPassed]
  · intro he
    rw [he]
    simp [selectPassed]

/-- Witness for C10: a one-row SELECT result against `expected = true`
passes (the boolean is counted as the integer 1). -/
theorem bool_expected_row_query_witness :
    boolExpCQ.expected = Expected.bool true
    ∧ (validate_with_competency_question oneRowQuery boolExpCQ []).passed = true :=
  ⟨rfl, ((bool_expected_row_query oneRowQuery boolExpCQ [["only"]] rfl).1 rfl).mpr rfl⟩

/-- C7 counterexample: on an unparseable document, `validate_output` returns
immediately with the fixed failure message and produces no report at all: no
report object with `results = []` and `summary.total = summary.passed = 0`
(let alone a `syntaxOk` field) exists anywhere in the cycle, contrary to the
claim. -/
theorem parse_gate_counterexample :
    validate_output Option.none [gateCQ] = ValidateResult.ttlFailed
    ∧ (validate_output Option.none [gateCQ]).reportOf = Option.none :=
  ⟨rfl, rfl⟩

/-- C7 amended: syntax failure is a hard gate in `validate_output`: for an
unparseable document the competency-question evaluator never runs (the
result is the fixed message `"Failed to load Turtle file."`, independent of
the question list, and the rejected cycle enters the fix loop on that
message), and no validation report is produced — the code builds no report
with empty results, zero counts, or a `syntaxOk` flag. `check_consistency`
is not invoked by `validate_output` at all. -/
theorem parse_gate (cqs : List CQ) :
    validate_output Option.none cqs = ValidateResult.ttlFailed
    ∧ (validate_output Option.none cqs).reportOf = Option.none :=
  ⟨rfl, rfl⟩

/-- C8 counterexample: `check_consistency` catches only the
inconsistent-ontology error; any other exception raised by the reasoner
call (here, a broken reasoner environment) propagates to the caller instead
of being returned as a list of strings. -/
theorem check_consistency_counterexample :
    check_consistency (ReasonerOutcome.raised "Java runtime not found")
      = Except.error "Java runtime not found" := rfl

/-- C8 amended: when the reasoner call either completes or raises the
inconsistent-ontology error, `check_consistency` returns human-readable
strings: a hard inconsistency yields the single summary string, inconsistent
classes are joined (reasoner order) into one message, and the empty list is
the only pass signal (returned exactly when the reasoner completed with no
reportable inconsistent class); however, any other exception from the
reasoner propagates to the caller uncaught. -/
theorem check_consistency_reports (classes : List String) :
    check_consistency ReasonerOutcome.inconsistent
        = Except.ok ["The ontology is inconsistent"]
    ∧ (String.intercalate ", " classes ≠ "" →
        check_consistency (ReasonerOutcome.completed classes)
          = Except.ok ["There are inconsistent classes in the ontology: "
              ++ String.intercalate ", " classes])
    ∧ (∀ e : String, check_consistency (ReasonerOutcome.raised e) = Except.error e)
    ∧ (∀ out : ReasonerOutcome, check_consistency out = Except.ok [] ↔
        ∃ cs : List String, out = ReasonerOutcome.completed cs
          ∧ String.intercalate ", " cs = "") := by
  refine ⟨rfl, ?_, fun e => rfl, ?_⟩
  · intro h
    simp [check_consistency, h]
  · intro out
    cases out with
    | inconsistent =>
        simp [check_consistency]
    | completed cs =>
        by_cases h : String.intercalate ", " cs = ""
        · simp [check_consistency, h]
        · simp [check_consistency, h]
    | raised e =>
        simp [check_consistency]

/-- Witness for C8: two inconsistent classes are enumerated in one joined
message. -/
theorem check_consistency_reports_witness :
    String.intercalate ", " ["A", "B"] ≠ ""
    ∧ check_consistency (ReasonerOutcome.completed ["A", "B"])
        = Except.ok ["There are inconsistent classes in the ontology: "
            ++ String.intercalate ", " ["A", "B"]] :=
  ⟨by decide, (check_consistency_reports ["A", "B"]).2.1 (by decide)⟩

/-- C1 counterexample: when every validation fails, the fix loop entered
with the source defaults performs 4 producer invocations after the initial
generation (the gate `step < max_steps` is checked only after the fix at
each of steps 0, 1, 2, 3), and 5 total validate cycles run — exceeding the
claimed bounds of 3 invocations and 4 cycles. -/
theorem retry_budget_counterexample :
    llm_setup_and_validate (Option.some "err") true (fun _ => Option.some "err") = 4
    ∧ ¬ llm_setup_and_validate (Option.some "err") true (fun _ => Option.some "err") ≤ 3
    ∧ total_validate_cycles (Option.some "err") true (fun _ => Option.some "err") = 5 := by
  have h3 : llm_fix_and_validate (fun _ => Option.some "err") 3 3 = 1 := by
    unfold llm_fix_and_validate
    simp
  have h2 : llm_fix_and_validate (fun _ => Option.some "err") 2 3 = 2 := by
    unfold llm_fix_and_validate
    simp [h3]
  have h1 : llm_fix_and_validate (fun _ => Option.some "err") 1 3 = 3 := by
    unfold llm_fix_and_validate
    simp [h2]
  have h0 : llm_fix_and_validate (fun _ => Option.some "err") 0 3 = 4 := by
    unfold llm_fix_and_validate
    simp [h1]
  have hsetup : llm_setup_and_validate (Option.some "err") true
      (fun _ => Option.some "err") = 4 := by
    unfold llm_setup_and_validate
    simpa using h0
  refine ⟨hsetup, ?_, ?_⟩
  · omega
  · unfold total_validate_cycles
    omega

/-- C1 amended: the correction loop always terminates (it is a total
function of the failure sequence) and performs at most
`(max_steps - step) + 1` producer invocations from any entry point; with the
source defaults (`step = 0`, `max_steps = 3`) that is at most 4 producer
invocations after the initial generation, hence at most 5 total validate
cycles (1 initial + up to 4 corrections). -/
theorem retry_budget (initial_error : Option String) (recursive : Bool)
    (v : Nat → Option String) :
    (∀ step max_steps : Nat,
        llm_fix_and_validate v step max_steps ≤ (max_steps - step) + 1)
    ∧ llm_setup_and_validate initial_error recursive v ≤ 4
    ∧ total_validate_cycles initial_error recursive v ≤ 5 := by
  have hfix : ∀ step max_steps : Nat,
      llm_fix_and_validate v step max_steps ≤ (max_steps - step) + 1 :=
    fun step max_steps => llm_fix_and_validate_le v max_steps (max_steps - step) step rfl
  have hsetup : llm_setup_and_validate initial_error recursive v ≤ 4 := by
    unfold llm_setup_and_validate
    split
    · have := hfix 0 3
      omega
    · omega
  refine ⟨hfix, hsetup, ?_⟩
  unfold total_validate_cycles
  omega
